import Mathlib

/-!
# Shallow embedding of the Confounder validation pipeline

This file embeds, in Lean 4, the core confounder-validation pipeline of the
repository (detection/statistical.py, detection/validator.py, estimation/bias.py,
estimation/sensitivity.py, correction/explainer.py, correction/suggester.py)
and proves the specification claims about it.

Modelling conventions:
* Numeric values (pandas cells, p-values, estimates) are rationals `ℚ`;
  a missing cell (NaN) is `Option.none`.
* A `Frame` is a list of column names plus a list of rows, each row a partial
  map from column name to value; `completeRows` is `df[cols].dropna()`.
* The numeric routines delegated to scipy/statsmodels (`stats.pearsonr`, the
  `OLS`/`Logit` model fit) are abstraction parameters ("oracles") returning
  `Except`: an `Except.error` models the Python exception that the source
  catches.  All the surrounding control flow — row filtering, sample-size
  floors, model selection, exception handling, thresholds — is embedded
  directly from the source.
* Python string `.lower()` is `lowerStr` (character-wise `Char.toLower`),
  and Python substring containment (`in`) is `hasSub`.
-/

/-- Character-wise lower-casing, embedding Python `str.lower()`. -/
def lowerStr (s : String) : String := ⟨s.data.map Char.toLower⟩

/-- `startsWithL s pat`: `pat` is a leading segment of `s`. -/
def startsWithL : List Char → List Char → Bool
  | _, [] => true
  | [], _ :: _ => false
  | a :: as, b :: bs => a == b && startsWithL as bs

/-- `hasSubL s pat`: `pat` occurs contiguously inside `s`
(Python `pat in s` on the underlying character lists). -/
def hasSubL : List Char → List Char → Bool
  | s, pat =>
    if startsWithL s pat then true
    else match s with
      | [] => false
      | _ :: rest => hasSubL rest pat

/-- Python substring test `pat in s` for strings. -/
def hasSub (s pat : String) : Bool := hasSubL s.data pat.data

/-- `llm/parser.py`: `ConfounderCandidate` — a proposed confounding variable. -/
structure ConfounderCandidate where
  name : String
  description : String
  causes_treatment_because : String
  causes_outcome_because : String
  severity : String
deriving DecidableEq

/-- A pandas row: partial map from column name to (non-NaN) value. -/
def Row : Type := String → Option ℚ

/-- `pandas.DataFrame`: the column list plus the rows. -/
structure Frame where
  cols : List String
  rows : List Row

/-- `data/loader.py`: `Study` — dataset plus treatment/outcome/covariate names
(the free-text fields play no role in the embedded pipeline and are omitted
from computation but kept for shape). -/
structure Study where
  data : Frame
  treatment : String
  outcome : String
  measured_covariates : List String
  research_question : String
  background_context : Option String

/-- `df[cs].dropna()`: the rows that are complete (non-missing) on every
column of `cs`. -/
def completeRows (f : Frame) (cs : List String) : List Row :=
  f.rows.filter (fun r => cs.all (fun c => (r c).isSome))

/-- Oracle type for `scipy.stats.pearsonr`: given the complete (x, y) pairs,
returns the p-value or fails (numerical failure). -/
def PearsonOracle : Type := List (ℚ × ℚ) → Except String ℚ

/-- The complete pairs of two aligned series (rows where both are present). -/
def cleanPairs (x y : List (Option ℚ)) : List (ℚ × ℚ) :=
  (x.zip y).filterMap (fun p =>
    match p.1, p.2 with
    | some a, some b => some (a, b)
    | _, _ => none)

/-- `detection/statistical.py`: `check_association` — unconditional association
test.  Drops incomplete pairs; below 5 complete rows, or on a numerical failure
of the Pearson test, returns `(1, false)` without raising. -/
def check_association (pearson : PearsonOracle) (var_x var_y : List (Option ℚ))
    (alpha : ℚ) : ℚ × Bool :=
  let clean := cleanPairs var_x var_y
  if clean.length < 5 then (1, false)
  else
    match pearson clean with
    | .ok p => (p, decide (p < alpha))
    | .error _ => (1, false)

/-- Result of a successful statsmodels model fit, as the source reads it:
the predictor's p-value and coefficient, its standard error, and the
(pseudo-)R². -/
structure FitOutcome where
  pval : ℚ
  coefficient : ℚ
  stdErr : ℚ
  rsq : ℚ
deriving DecidableEq

/-- Oracle type for the statsmodels `OLS`/`Logit` fit used by
`check_conditional_association`: receives the complete rows, the target,
predictor and control columns and whether a Logit model was selected;
an `error` models a raised fitting exception. -/
def FitOracle : Type :=
  List Row → String → String → List String → Bool → Except String FitOutcome

/-- The regression-details annotation attached to a conditional test
(the `details` dict of the source). -/
inductive CondDetails where
  | insufficientData
  | fitError (msg : String)
  | fitted (coefficient stdErr rsq : ℚ) (modelLogit : Bool)
deriving DecidableEq

/-- The binary-target auto-detection of the source:
`set(Y.unique()) <= {0, 1, 0.0, 1.0, True, False}` on the cleaned rows. -/
def condIsLogit (df : List Row) (target : String) (is_binary_target : Bool) : Bool :=
  is_binary_target || df.all (fun r => decide (r target = some 0 ∨ r target = some 1))

/-- `detection/statistical.py`: `check_conditional_association` — association
of `predictor` with `target` controlling for `controls`.  Restricts to the
involved columns, drops incomplete rows; below `len(cols) + 5` complete rows
returns not-significant with an insufficient-data marker; selects Logit for a
binary target and OLS otherwise; a fit failure is caught and reported as
not-significant with the error message. -/
def check_conditional_association (fit : FitOracle) (target predictor : String)
    (controls : List String) (data : Frame) (alpha : ℚ)
    (is_binary_target : Bool) : ℚ × Bool × CondDetails :=
  let cols := [target, predictor] ++ controls
  let df := completeRows data cols
  if df.length < cols.length + 5 then (1, false, .insufficientData)
  else
    let isLogit := condIsLogit df target is_binary_target
    match fit df target predictor controls isLogit with
    | .ok out =>
        (out.pval, decide (out.pval < alpha),
          .fitted out.coefficient out.stdErr out.rsq isLogit)
    | .error e => (1, false, .fitError e)

/-- The dictionary returned by `check_confounding_criteria`, as a structure. -/
structure ConfoundingCriteria where
  is_statistical_confounder : Bool
  causes_treatment_pval : ℚ
  causes_treatment_sig : Bool
  causes_treatment_details : CondDetails
  causes_outcome_pval : ℚ
  causes_outcome_sig : Bool
  causes_outcome_details : CondDetails

/-- `detection/statistical.py`: `check_confounding_criteria` — the two-sided
confounding criterion.  Test 1: Z → T controlling for the covariates.
Test 2: Z → Y controlling for T plus the covariates.  Z is a statistical
confounder iff both are significant. -/
def check_confounding_criteria (fit : FitOracle) (z_col t_col y_col : String)
    (covariates : List String) (data : Frame) (alpha : ℚ) : ConfoundingCriteria :=
  let rT := check_conditional_association fit t_col z_col covariates data alpha false
  let rY := check_conditional_association fit y_col z_col ([t_col] ++ covariates)
    data alpha false
  { is_statistical_confounder := rT.2.1 && rY.2.1
    causes_treatment_pval := rT.1
    causes_treatment_sig := rT.2.1
    causes_treatment_details := rT.2.2
    causes_outcome_pval := rY.1
    causes_outcome_sig := rY.2.1
    causes_outcome_details := rY.2.2 }

/-- `detection/validator.py`: `ValidatedConfounder`. -/
structure ValidatedConfounder where
  candidate : ConfounderCandidate
  is_measured : Bool
  matched_column : Option String
  causes_treatment_pval : Option ℚ := none
  causes_outcome_pval : Option ℚ := none
  is_statistically_significant : Bool := false
  bias_magnitude : Option ℚ := none
  bias_percentage : Option ℚ := none
deriving DecidableEq

/-- `detection/validator.py`: `match_candidate_to_column` — exact
case-insensitive match first (first column in order), otherwise the first
column with a case-insensitive substring containment either way, provided
the candidate name has at least 3 characters. -/
def match_candidate_to_column (candidate : ConfounderCandidate)
    (columns : List String) : Option String :=
  let c_name := lowerStr candidate.name
  if columns.any (fun col => lowerStr col == c_name) then
    columns.find? (fun col => lowerStr col == c_name)
  else
    columns.find? (fun col =>
      (hasSub (lowerStr col) c_name || hasSub c_name (lowerStr col)) &&
        decide (3 ≤ c_name.length))

/-- `detection/validator.py`: `validate_candidates` — per candidate: match to
a column; a match equal to treatment or outcome is discarded; no match gives
an unmeasured record; otherwise the two-criterion statistical test is run with
controls = measured covariates minus the matched column. -/
def validate_candidates (fit : FitOracle) (candidates : List ConfounderCandidate)
    (study : Study) (alpha : ℚ) : List ValidatedConfounder :=
  candidates.filterMap (fun cand =>
    let matched_col := match_candidate_to_column cand study.data.cols
    match matched_col with
    | some col =>
        if col = study.treatment ∨ col = study.outcome then none
        else
          let controls := study.measured_covariates.filter (fun c => decide (c ≠ col))
          let stats := check_confounding_criteria fit col study.treatment
            study.outcome controls study.data alpha
          some { candidate := cand
                 is_measured := true
                 matched_column := some col
                 causes_treatment_pval := some stats.causes_treatment_pval
                 causes_outcome_pval := some stats.causes_outcome_pval
                 is_statistically_significant := stats.is_statistical_confounder }
    | none =>
        some { candidate := cand
               is_measured := false
               matched_column := none })

/-- `estimation/bias.py`: `BiasEstimationResult`. -/
structure BiasEstimationResult where
  naive_estimate : ℚ
  adjusted_estimate : ℚ
  bias_magnitude : ℚ
  bias_percentage : ℚ
  is_problematic : Bool
deriving DecidableEq

/-- Oracle type for the `sm.OLS(...).fit()` call inside `_estimate_effect`:
given the complete rows and the design columns, returns the treatment
coefficient or fails. -/
def OlsOracle : Type := List Row → String → String → List String → Except String ℚ

/-- `estimation/bias.py`: `_estimate_effect` — drops rows incomplete on
treatment/outcome/controls, requires at least `len(controls) + 5` of them,
then fits OLS and takes the treatment coefficient. -/
def estimateEffect (ols : OlsOracle) (data : Frame) (treatment outcome : String)
    (controls : List String) : Except String ℚ :=
  let df := completeRows data ([treatment, outcome] ++ controls)
  if df.length < controls.length + 5 then
    .error ("Insufficient data for regression after dropping NaNs.")
  else ols df treatment outcome controls

/-- `pandas.Series.mean` over the non-missing values already extracted:
the mean of an empty selection is NaN in pandas, modelled as `none`. -/
def seriesMean (l : List ℚ) : Option ℚ :=
  if l.length = 0 then none else some (l.sum / l.length)

/-- The naive-effect step of `estimate_bias`: OLS of outcome on treatment
alone; if that raises and the treatment column is binary {0, 1}, fall back to
the mean-outcome difference between the two groups, otherwise the failure is
fatal.  (The NaN that pandas would produce for a mean over an empty group is
not a rational and is modelled as a failure; no claim touches that corner.) -/
def naiveEstimate (ols : OlsOracle) (study : Study) : Except String ℚ :=
  match estimateEffect ols study.data study.treatment study.outcome [] with
  | .ok v => .ok v
  | .error _ =>
    if study.data.rows.all (fun r =>
        decide (r study.treatment = some 0 ∨ r study.treatment = some 1)) then
      let g0 := study.data.rows.filterMap (fun r =>
        if r study.treatment = some 0 then r study.outcome else none)
      let g1 := study.data.rows.filterMap (fun r =>
        if r study.treatment = some 1 then r study.outcome else none)
      match seriesMean g0, seriesMean g1 with
      | some m0, some m1 => .ok (m1 - m0)
      | _, _ => .error ("Naive mean difference undefined on an empty group")
    else .error ("Naive estimation failed on continuous treatment")

/-- `estimation/bias.py`: `estimate_bias` — precondition `is_measured` with a
matched column (Python truthiness: an empty-string column name also fails the
guard); naive vs adjusted OLS estimate; an adjusted-fit failure degrades to a
zero/not-problematic result, leaving the record untouched; otherwise the bias
magnitude/percentage are computed, written into the confounder record, and
returned.  The returned pair is (result, confounder record after the call),
making the in-place mutation of the Python record explicit. -/
def estimate_bias (ols : OlsOracle) (confounder : ValidatedConfounder)
    (study : Study) (bias_threshold : ℚ) :
    Except String (BiasEstimationResult × ValidatedConfounder) :=
  match confounder.is_measured, confounder.matched_column with
  | true, some z_col =>
    if z_col = "" then
      .error ("Cannot quantify precise bias for unmeasured confounders.")
    else
      match naiveEstimate ols study with
      | .error e => .error e
      | .ok estimate_naive =>
        match estimateEffect ols study.data study.treatment study.outcome [z_col] with
        | .error _ =>
            .ok ({ naive_estimate := estimate_naive
                   adjusted_estimate := estimate_naive
                   bias_magnitude := 0
                   bias_percentage := 0
                   is_problematic := false }, confounder)
        | .ok estimate_adj =>
            let bias_mag := estimate_naive - estimate_adj
            let denom := if |estimate_adj| > 1 / 10 ^ 10 then |estimate_adj|
              else |estimate_naive|
            let bias_pct := if denom > 1 / 10 ^ 10 then bias_mag / denom * 100 else 0
            let is_prob := decide (|bias_pct| > bias_threshold * 100)
            .ok ({ naive_estimate := estimate_naive
                   adjusted_estimate := estimate_adj
                   bias_magnitude := bias_mag
                   bias_percentage := bias_pct
                   is_problematic := is_prob },
                 { confounder with
                     bias_magnitude := some bias_mag
                     bias_percentage := some bias_pct })
  | _, _ => .error ("Cannot quantify precise bias for unmeasured confounders.")

/-- `estimation/sensitivity.py`: `SensitivityResult`. -/
structure SensitivityResult where
  required_strength : ℚ
  could_invalidate_result : Bool
  explanation : String
deriving DecidableEq

/-- The `severity_map.get(severity, 2.5)` lookup of
`bound_unmeasured_confounder`. -/
def severityToStrength (s : String) : ℚ :=
  if s = "high" then 3 / 2
  else if s = "medium" then 5 / 2
  else if s = "low" then 4
  else 5 / 2

/-- `estimation/sensitivity.py`: `bound_unmeasured_confounder` — precondition
not `is_measured`; maps the proposer severity to a required association
strength; serious iff that strength is below 2.  (The explanation strings are
embedded without the quote characters around the candidate name.) -/
def bound_unmeasured_confounder (confounder : ValidatedConfounder)
    (study : Study) (naive_estimate : ℚ) : Except String SensitivityResult :=
  if confounder.is_measured then
    .error ("Sensitivity analysis is for unmeasured confounders.")
  else
    let req_strength := severityToStrength (lowerStr confounder.candidate.severity)
    if req_strength < 2 then
      .ok { required_strength := req_strength
            could_invalidate_result := true
            explanation := "If " ++ confounder.candidate.name ++
              " has even a moderate effect (RR > " ++ toString req_strength ++
              "), it could completely invalidate the observed treatment effect." }
    else
      .ok { required_strength := req_strength
            could_invalidate_result := false
            explanation := "To invalidate the result, " ++
              confounder.candidate.name ++
              " would need to be very strongly associated (RR > " ++
              toString req_strength ++ ") with treatment and outcome." }

/-- `correction/explainer.py`: `RankedConfounder`. -/
structure RankedConfounder where
  confounder : ValidatedConfounder
  severity : String
  priority : ℕ
deriving DecidableEq

/-- The per-confounder body of the `rank_confounders` loop: the priority and
severity assignment, or `none` for a measured-but-not-significant confounder
(the `continue` branch). -/
def rankOne (v : ValidatedConfounder) : Option RankedConfounder :=
  if v.is_measured && v.is_statistically_significant then
    let bias_pct := |v.bias_percentage.getD 0|
    if bias_pct > 25 then some { confounder := v, severity := "Critical", priority := 1 }
    else if bias_pct > 10 then some { confounder := v, severity := "Moderate", priority := 2 }
    else some { confounder := v, severity := "Minor", priority := 4 }
  else if !v.is_measured then
    if lowerStr v.candidate.severity = "high" then
      some { confounder := v, severity := "Critical", priority := 1 }
    else if lowerStr v.candidate.severity = "medium" then
      some { confounder := v, severity := "Moderate", priority := 3 }
    else some { confounder := v, severity := "Minor", priority := 5 }
  else none

/-- Stable insertion by priority: the new element goes after every element of
strictly smaller priority and before every element of equal or larger
priority.  Folded right over the list this is a stable ascending sort, the
behaviour of `list.sort(key=lambda x: x.priority)`. -/
def insertRanked (x : RankedConfounder) : List RankedConfounder → List RankedConfounder
  | [] => [x]
  | y :: ys => if y.priority < x.priority then y :: insertRanked x ys else x :: y :: ys

/-- Stable ascending sort by priority (extensionally the Timsort call of the
source: any two stable sorts by the same key agree). -/
def sortByPriority (l : List RankedConfounder) : List RankedConfounder :=
  l.foldr insertRanked []

/-- `correction/explainer.py`: `rank_confounders` — rank every validated
confounder (dropping measured-not-significant ones) and sort ascending by
priority, stably. -/
def rank_confounders (validated : List ValidatedConfounder) : List RankedConfounder :=
  sortByPriority (validated.filterMap rankOne)

/-- `correction/suggester.py`: `CorrectionStrategy`. -/
structure CorrectionStrategy where
  action_type : String
  description : String
  code_example : Option String := none
deriving DecidableEq

/-- Python `f"{opt}"` rendering of an optional string. -/
def optStr : Option String → String
  | some s => s
  | none => "None"

/-- The per-confounder body of the `suggest_corrections` loop: the ordered
strategy list for one confounder.  (Description strings are embedded without
the quote characters around names.) -/
def strategiesFor (conf : ValidatedConfounder) : List CorrectionStrategy :=
  if conf.is_measured && conf.is_statistically_significant then
    let base := [{ action_type := "control"
                   description := "Include " ++ optStr conf.matched_column ++
                     " as a covariate in your regression model or propensity score matching."
                   code_example := some ("sm.OLS(Y, sm.add_constant(df[[Treatment, " ++
                     optStr conf.matched_column ++ "]]))") : CorrectionStrategy }]
    match conf.bias_percentage with
    | some b =>
        if b ≠ 0 ∧ |b| > 25 then
          base ++ [{ action_type := "stratify"
                     description := "Bias from " ++ optStr conf.matched_column ++
                       " is substantial (>25%). Consider analyzing treatment effects entirely separately for different levels/strata of " ++
                       optStr conf.matched_column ++ "." }]
        else base
    | none => base
  else if !conf.is_measured then
    [{ action_type := "sensitivity"
       description := conf.candidate.name ++
         " is unmeasured. Run a sensitivity analysis (e.g., Rosenbaum bounds) in your final paper to prove your result is robust to it." },
     { action_type := "study_design"
       description := "Can you find a proxy variable for " ++ conf.candidate.name ++
         " in your existing data? If not, future studies MUST measure it." }]
  else []

/-- Python-dict assignment `m[k] = v` on an insertion-ordered association
list: an existing key keeps its position and gets the new value, a new key is
appended. -/
def updateRec (m : List (String × List CorrectionStrategy)) (k : String)
    (v : List CorrectionStrategy) : List (String × List CorrectionStrategy) :=
  if m.any (fun p => p.1 == k) then
    m.map (fun p => if p.1 = k then (k, v) else p)
  else m ++ [(k, v)]

/-- `correction/suggester.py`: `suggest_corrections` — per confounder compute
the strategy list and record it under the candidate name when non-empty. -/
def suggest_corrections (confounders : List ValidatedConfounder) :
    List (String × List CorrectionStrategy) :=
  confounders.foldl (fun acc conf =>
    let strats := strategiesFor conf
    if strats.isEmpty then acc else updateRec acc conf.candidate.name strats) []

/-! ## Claims -/

/-- C8: for every unmeasured confounder, `bound_unmeasured_confounder` returns
`required_strength` determined solely by the lower-cased severity label —
high → 1.5, medium → 2.5, low → 4.0, any other label → 2.5 — and
`could_invalidate_result` holds iff `required_strength < 2`, which happens
exactly for severity high. -/
theorem bound_unmeasured_severity_table (conf : ValidatedConfounder)
    (study : Study) (naive : ℚ) (h : conf.is_measured = false) :
    ∃ r, bound_unmeasured_confounder conf study naive = .ok r ∧
      (lowerStr conf.candidate.severity = "high" → r.required_strength = 3 / 2) ∧
      (lowerStr conf.candidate.severity = "medium" → r.required_strength = 5 / 2) ∧
      (lowerStr conf.candidate.severity = "low" → r.required_strength = 4) ∧
      (lowerStr conf.candidate.severity ≠ "high" →
        lowerStr conf.candidate.severity ≠ "medium" →
        lowerStr conf.candidate.severity ≠ "low" → r.required_strength = 5 / 2) ∧
      (r.could_invalidate_result = true ↔ r.required_strength < 2) ∧
      (r.could_invalidate_result = true ↔ lowerStr conf.candidate.severity = "high") := by
  unfold bound_unmeasured_confounder
  rw [h]
  simp only [Bool.false_eq_true, if_false]
  by_cases hh : lowerStr conf.candidate.severity = "high"
  · rw [hh, show severityToStrength "high" = 3 / 2 from rfl,
      if_pos (by norm_num : (3 : ℚ) / 2 < 2)]
    exact ⟨_, rfl, fun _ => rfl, by simp, by simp, by simp,
      by constructor <;> intro <;> norm_num, by simp⟩
  · by_cases hm : lowerStr conf.candidate.severity = "medium"
    · rw [hm, show severityToStrength "medium" = 5 / 2 from rfl,
        if_neg (by norm_num : ¬ (5 : ℚ) / 2 < 2)]
      exact ⟨_, rfl, by simp, fun _ => rfl, by simp, by simp,
        by constructor <;> intro hc <;> [exact absurd hc (by simp); norm_num at hc],
        by simp⟩
    · by_cases hl : lowerStr conf.candidate.severity = "low"
      · rw [hl, show severityToStrength "low" = 4 from rfl,
          if_neg (by norm_num : ¬ (4 : ℚ) < 2)]
        exact ⟨_, rfl, by simp, by simp, fun _ => rfl, by simp,
          by constructor <;> intro hc <;> [exact absurd hc (by simp); norm_num at hc],
          by simp [hl]⟩
      · rw [show severityToStrength (lowerStr conf.candidate.severity) = 5 / 2 by
            unfold severityToStrength
            rw [if_neg hh, if_neg hm, if_neg hl],
          if_neg (by norm_num : ¬ (5 : ℚ) / 2 < 2)]
        exact ⟨_, rfl, fun hc => absurd hc hh, fun _ => rfl, fun hc => absurd hc hl,
          fun _ _ _ => rfl,
          by constructor <;> intro hc <;> [exact absurd hc (by simp); norm_num at hc],
          by simp [hh]⟩

/-- Witness for C8 at a concrete unmeasured, high-severity confounder. -/
theorem bound_unmeasured_severity_table_witness :
    ∃ r, bound_unmeasured_confounder
        { candidate := { name := "income", description := "", causes_treatment_because := "",
                         causes_outcome_because := "", severity := "High" }
          is_measured := false, matched_column := none }
        { data := { cols := [], rows := [] }, treatment := "t", outcome := "y",
          measured_covariates := [], research_question := "", background_context := none }
        0 = .ok r ∧
      (lowerStr "High" = "high" → r.required_strength = 3 / 2) ∧
      (lowerStr "High" = "medium" → r.required_strength = 5 / 2) ∧
      (lowerStr "High" = "low" → r.required_strength = 4) ∧
      (lowerStr "High" ≠ "high" → lowerStr "High" ≠ "medium" →
        lowerStr "High" ≠ "low" → r.required_strength = 5 / 2) ∧
      (r.could_invalidate_result = true ↔ r.required_strength < 2) ∧
      (r.could_invalidate_result = true ↔ lowerStr "High" = "high") :=
  bound_unmeasured_severity_table _ _ 0 rfl

/-- C10: the sensitivity bound of an unmeasured confounder depends only on
the candidate name and severity: the study and the naive estimate have no
influence on the result. -/
theorem bound_unmeasured_ignores_study (conf1 conf2 : ValidatedConfounder)
    (study1 study2 : Study) (naive1 naive2 : ℚ)
    (h1 : conf1.is_measured = false) (h2 : conf2.is_measured = false)
    (hn : conf1.candidate.name = conf2.candidate.name)
    (hs : conf1.candidate.severity = conf2.candidate.severity) :
    bound_unmeasured_confounder conf1 study1 naive1 =
      bound_unmeasured_confounder conf2 study2 naive2 := by
  unfold bound_unmeasured_confounder
  rw [h1, h2, hn, hs]

/-- Witness for C10: same candidate, two entirely different studies and naive
estimates. -/
theorem bound_unmeasured_ignores_study_witness :
    bound_unmeasured_confounder
      { candidate := { name := "age", description := "d1", causes_treatment_because := "a",
                       causes_outcome_because := "b", severity := "low" }
        is_measured := false, matched_column := none }
      { data := { cols := ["x"], rows := [fun _ => some 1] }, treatment := "x",
        outcome := "x", measured_covariates := ["x"], research_question := "q1",
        background_context := none }
      7 =
    bound_unmeasured_confounder
      { candidate := { name := "age", description := "d2", causes_treatment_because := "c",
                       causes_outcome_because := "d", severity := "low" }
        is_measured := false, matched_column := none, bias_magnitude := some 3 }
      { data := { cols := [], rows := [] }, treatment := "t", outcome := "y",
        measured_covariates := [], research_question := "q2",
        background_context := some "ctx" }
      (-4) :=
  bound_unmeasured_ignores_study _ _ _ _ _ _ rfl rfl rfl rfl

/-- C6: calling `estimate_bias` on a confounder that is not measured or has
no matched column fails with a precondition-violation error, and calling
`bound_unmeasured_confounder` on a measured confounder fails with a
precondition-violation error; both return an error for that call only, they
do not compute anything. -/
theorem precondition_violations (ols : OlsOracle) (conf conf2 : ValidatedConfounder)
    (study study2 : Study) (naive thr : ℚ) :
    ((conf.is_measured = false ∨ conf.matched_column = none) →
      ∃ e, estimate_bias ols conf study thr = .error e) ∧
    (conf2.is_measured = true →
      ∃ e, bound_unmeasured_confounder conf2 study2 naive = .error e) := by
  constructor
  · intro h
    unfold estimate_bias
    rcases h with h | h
    · rw [h]
      exact ⟨_, rfl⟩
    · rw [h]
      cases conf.is_measured <;> exact ⟨_, rfl⟩
  · intro h
    unfold bound_unmeasured_confounder
    rw [h]
    exact ⟨_, rfl⟩

/-- Witness for C6 at concrete confounders: an unmeasured one fed to
`estimate_bias` and a measured one fed to `bound_unmeasured_confounder`. -/
theorem precondition_violations_witness :
    ((({ candidate := { name := "age", description := "", causes_treatment_because := "",
                        causes_outcome_because := "", severity := "low" }
         is_measured := false, matched_column := none } : ValidatedConfounder).is_measured = false ∨
      ({ candidate := { name := "age", description := "", causes_treatment_because := "",
                        causes_outcome_because := "", severity := "low" }
         is_measured := false, matched_column := none } : ValidatedConfounder).matched_column = none) →
      ∃ e, estimate_bias (fun _ _ _ _ => .ok 0)
        { candidate := { name := "age", description := "", causes_treatment_because := "",
                         causes_outcome_because := "", severity := "low" }
          is_measured := false, matched_column := none }
        { data := { cols := [], rows := [] }, treatment := "t", outcome := "y",
          measured_covariates := [], research_question := "", background_context := none }
        (1 / 10) = .error e) ∧
    (({ candidate := { name := "age", description := "", causes_treatment_because := "",
                       causes_outcome_because := "", severity := "low" }
        is_measured := true, matched_column := some "age" } : ValidatedConfounder).is_measured = true →
      ∃ e, bound_unmeasured_confounder
        { candidate := { name := "age", description := "", causes_treatment_because := "",
                         causes_outcome_because := "", severity := "low" }
          is_measured := true, matched_column := some "age" }
        { data := { cols := [], rows := [] }, treatment := "t", outcome := "y",
          measured_covariates := [], research_question := "", background_context := none }
        0 = .error e) :=
  precondition_violations _ _ _ _ _ _ _

/-- C7: `match_candidate_to_column` returns the first column whose
lower-cased name equals the candidate's lower-cased name whenever one exists;
otherwise, when the (lower-cased) candidate name has at least 3 characters,
the first column in order with a case-insensitive substring containment in
either direction; otherwise `none` (a name shorter than 3 characters never
fuzzy-matches). -/
theorem match_candidate_first_exact_then_fuzzy (cand : ConfounderCandidate)
    (columns : List String) :
    match_candidate_to_column cand columns =
      match columns.find? (fun col => lowerStr col == lowerStr cand.name) with
      | some col => some col
      | none =>
          if 3 ≤ (lowerStr cand.name).length then
            columns.find? (fun col =>
              hasSub (lowerStr col) (lowerStr cand.name) ||
                hasSub (lowerStr cand.name) (lowerStr col))
          else none := by
  unfold match_candidate_to_column
  cases hfind : columns.find? (fun col => lowerStr col == lowerStr cand.name) with
  | some col =>
      have hany : columns.any (fun col => lowerStr col == lowerStr cand.name) = true := by
        rw [List.any_eq_true]
        exact ⟨col, List.mem_of_find?_eq_some hfind, by
          have hp := List.find?_some hfind
          simpa using hp⟩
      rw [if_pos hany, hfind]
  | none =>
      have hany : columns.any (fun col => lowerStr col == lowerStr cand.name) = false := by
        rw [Bool.eq_false_iff]
        intro hc
        rw [List.any_eq_true] at hc
        obtain ⟨col, hmem, hp⟩ := hc
        rw [List.find?_eq_none] at hfind
        exact absurd hp (by simpa using hfind col hmem)
      rw [if_neg (by simp [hany])]
      by_cases hlen : 3 ≤ (lowerStr cand.name).length
      · rw [if_pos hlen]
        congr 1
        funext col
        simp [hlen]
      · rw [if_neg hlen]
        rw [List.find?_eq_none]
        intro col _
        simp [hlen]

/-- C2: whenever `estimate_bias` returns a result (for a non-negative bias
threshold), the result satisfies: bias magnitude = naive − adjusted; bias
percentage = magnitude / |adjusted| × 100 when |adjusted| > 1e-10, else
magnitude / |naive| × 100 when |naive| > 1e-10, else 0; and the problematic
flag holds iff |percentage| > threshold × 100. -/
theorem estimate_bias_formulas (ols : OlsOracle) (conf : ValidatedConfounder)
    (study : Study) (thr : ℚ) (res : BiasEstimationResult)
    (conf2 : ValidatedConfounder) (hthr : 0 ≤ thr)
    (h : estimate_bias ols conf study thr = .ok (res, conf2)) :
    res.bias_magnitude = res.naive_estimate - res.adjusted_estimate ∧
    res.bias_percentage =
      (if |res.adjusted_estimate| > 1 / 10 ^ 10 then
        res.bias_magnitude / |res.adjusted_estimate| * 100
      else if |res.naive_estimate| > 1 / 10 ^ 10 then
        res.bias_magnitude / |res.naive_estimate| * 100
      else 0) ∧
    (res.is_problematic = true ↔ |res.bias_percentage| > thr * 100) := by
  unfold estimate_bias at h
  cases hm : conf.is_measured <;> rw [hm] at h
  · cases conf.matched_column <;> exact absurd h (by simp)
  · cases hcol : conf.matched_column <;> rw [hcol] at h
    · exact absurd h (by simp)
    · rename_i z_col
      dsimp only at h
      by_cases hz : z_col = ""
      · rw [if_pos hz] at h
        exact absurd h (by simp)
      · rw [if_neg hz] at h
        cases hnv : naiveEstimate ols study <;> rw [hnv] at h
        · exact absurd h (by simp)
        · rename_i naive
          cases hadj : estimateEffect ols study.data study.treatment study.outcome
              [z_col] <;> rw [hadj] at h
          · simp only [Except.ok.injEq, Prod.mk.injEq] at h
            obtain ⟨hres, -⟩ := h
            subst hres
            refine ⟨by simp, ?_, ?_⟩
            · simp only
              split_ifs with h1
              · rw [zero_div, zero_mul]
              · rfl
            · simp only
              rw [abs_zero]
              constructor
              · intro hc
                simp at hc
              · intro hc
                exact absurd hc (not_lt.mpr (mul_nonneg hthr (by norm_num)))
          · rename_i adj
            simp only [Except.ok.injEq, Prod.mk.injEq] at h
            obtain ⟨hres, -⟩ := h
            subst hres
            dsimp only
            refine ⟨rfl, ?_, by rw [decide_eq_true_eq]⟩
            by_cases h1 : |adj| > 1 / 10 ^ 10
            · rw [if_pos h1, if_pos h1, if_pos h1]
            · rw [if_neg h1, if_neg h1]

/-- A concrete complete row over columns t, y, z. -/
def rowTYZ : Row := fun c =>
  if c = "t" then some 1 else if c = "y" then some 2 else
  if c = "z" then some 3 else none

/-- A concrete six-row frame over columns t, y, z. -/
def frameTYZ : Frame :=
  { cols := ["t", "y", "z"], rows := [rowTYZ, rowTYZ, rowTYZ, rowTYZ, rowTYZ, rowTYZ] }

/-- A concrete study on `frameTYZ`. -/
def studyTYZ : Study :=
  { data := frameTYZ, treatment := "t", outcome := "y", measured_covariates := ["z"]
    research_question := "does t cause y", background_context := none }

/-- A concrete candidate named z. -/
def candZ : ConfounderCandidate :=
  { name := "z", description := "confounder", causes_treatment_because := "a"
    causes_outcome_because := "b", severity := "medium" }

/-- A concrete measured, significant confounder matched to column z, with
bias fields not yet populated. -/
def confZ : ValidatedConfounder :=
  { candidate := candZ, is_measured := true, matched_column := some "z"
    causes_treatment_pval := some (1 / 100), causes_outcome_pval := some (1 / 100)
    is_statistically_significant := true }

/-- An OLS oracle returning effect 10 with no controls and 5 with controls. -/
def olsBoth : OlsOracle := fun _ _ _ cs => if cs.isEmpty then .ok 10 else .ok 5

/-- The bias result of `estimate_bias olsBoth confZ studyTYZ`. -/
def biasResW : BiasEstimationResult :=
  { naive_estimate := 10, adjusted_estimate := 5, bias_magnitude := 5
    bias_percentage := 100, is_problematic := true }

/-- `confZ` after `estimate_bias` has populated its bias fields. -/
def confZafter : ValidatedConfounder :=
  { confZ with bias_magnitude := some 5, bias_percentage := some 100 }

/-- The successful run of `estimate_bias` on the concrete scenario. -/
theorem estimate_bias_olsBoth_run :
    estimate_bias olsBoth confZ studyTYZ (1 / 10) = .ok (biasResW, confZafter) := by
  unfold estimate_bias
  rw [show confZ.is_measured = true from rfl,
    show confZ.matched_column = some "z" from rfl]
  dsimp only
  rw [if_neg (by decide : ¬ ("z" : String) = "")]
  rw [show naiveEstimate olsBoth studyTYZ = .ok 10 from rfl]
  rw [show estimateEffect olsBoth studyTYZ.data studyTYZ.treatment studyTYZ.outcome
    ["z"] = .ok 5 from rfl]
  dsimp only
  rw [show ((10 : ℚ) - 5) = 5 from by norm_num]
  rw [if_pos (by norm_num : |(5 : ℚ)| > 1 / 10 ^ 10)]
  rw [if_pos (by norm_num : |(5 : ℚ)| > 1 / 10 ^ 10)]
  rw [show (5 : ℚ) / |(5 : ℚ)| * 100 = 100 from by
    rw [abs_of_pos (by norm_num : (0:ℚ) < 5)]
    norm_num]
  rw [show decide (|(100 : ℚ)| > 1 / 10 * 100) = true from by
    rw [decide_eq_true_eq, abs_of_pos (by norm_num : (0:ℚ) < 100)]
    norm_num]
  rfl

/-- Witness for C2: the bias formulas hold on the concrete successful run. -/
theorem estimate_bias_formulas_witness :
    biasResW.bias_magnitude = biasResW.naive_estimate - biasResW.adjusted_estimate ∧
    biasResW.bias_percentage =
      (if |biasResW.adjusted_estimate| > 1 / 10 ^ 10 then
        biasResW.bias_magnitude / |biasResW.adjusted_estimate| * 100
      else if |biasResW.naive_estimate| > 1 / 10 ^ 10 then
        biasResW.bias_magnitude / |biasResW.naive_estimate| * 100
      else 0) ∧
    (biasResW.is_problematic = true ↔ |biasResW.bias_percentage| > 1 / 10 * 100) :=
  estimate_bias_formulas olsBoth confZ studyTYZ (1 / 10) biasResW confZafter
    (by norm_num) estimate_bias_olsBoth_run

/-- An OLS oracle that fits with no controls but fails with controls,
modelling a singular design matrix on the adjusted regression. -/
def olsFailAdj : OlsOracle :=
  fun _ _ _ cs => if cs.isEmpty then .ok 10 else .error ("singular matrix")

/-- The failing-adjusted-fit run of `estimate_bias` on the concrete scenario:
the call succeeds with a zero/not-problematic result and returns the
confounder record unchanged. -/
theorem estimate_bias_olsFailAdj_run :
    estimate_bias olsFailAdj confZ studyTYZ (1 / 10) =
      .ok ({ naive_estimate := 10, adjusted_estimate := 10, bias_magnitude := 0
             bias_percentage := 0, is_problematic := false }, confZ) := by
  unfold estimate_bias
  rw [show confZ.is_measured = true from rfl,
    show confZ.matched_column = some "z" from rfl]
  dsimp only
  rw [if_neg (by decide : ¬ ("z" : String) = "")]
  rw [show naiveEstimate olsFailAdj studyTYZ = .ok 10 from rfl]
  rw [show estimateEffect olsFailAdj studyTYZ.data studyTYZ.treatment
    studyTYZ.outcome ["z"] = .error ("singular matrix") from rfl]

/-- C3 counterexample: when the adjusted-effect fit fails, `estimate_bias`
still succeeds and reports zero bias, but the confounder record is returned
unchanged — its `bias_magnitude`/`bias_percentage` fields are NOT populated
(they are still `none`), contradicting the claim that they are populated as
part of every succeeding call. -/
theorem estimate_bias_no_mutation_on_fit_failure_cex :
    estimateEffect olsFailAdj studyTYZ.data studyTYZ.treatment studyTYZ.outcome
      ["z"] = .error ("singular matrix") ∧
    estimate_bias olsFailAdj confZ studyTYZ (1 / 10) =
      .ok ({ naive_estimate := 10, adjusted_estimate := 10, bias_magnitude := 0
             bias_percentage := 0, is_problematic := false }, confZ) ∧
    confZ.bias_magnitude = none ∧ confZ.bias_percentage = none :=
  ⟨rfl, estimate_bias_olsFailAdj_run, rfl, rfl⟩

/-- C3 (amended): on a succeeding `estimate_bias` call, the confounder
record's bias fields are populated exactly when the adjusted-effect fit
succeeds; when that fit fails, the returned result reports zero bias and
not-problematic but the record is returned unchanged (its bias fields are not
written). -/
theorem estimate_bias_mutation (ols : OlsOracle) (conf : ValidatedConfounder)
    (study : Study) (thr : ℚ) (res : BiasEstimationResult)
    (conf2 : ValidatedConfounder) (z : String)
    (hz : conf.matched_column = some z)
    (h : estimate_bias ols conf study thr = .ok (res, conf2)) :
    ((∃ v, estimateEffect ols study.data study.treatment study.outcome [z] = .ok v) →
      conf2.bias_magnitude = some res.bias_magnitude ∧
      conf2.bias_percentage = some res.bias_percentage) ∧
    ((∃ e, estimateEffect ols study.data study.treatment study.outcome [z] = .error e) →
      conf2 = conf ∧ res.bias_magnitude = 0 ∧ res.bias_percentage = 0 ∧
      res.is_problematic = false) := by
  unfold estimate_bias at h
  cases hm : conf.is_measured <;> rw [hm] at h
  · rw [hz] at h
    exact absurd h (by simp)
  · rw [hz] at h
    dsimp only at h
    by_cases hzempty : z = ""
    · rw [if_pos hzempty] at h
      exact absurd h (by simp)
    · rw [if_neg hzempty] at h
      cases hnv : naiveEstimate ols study <;> rw [hnv] at h
      · exact absurd h (by simp)
      · cases hadj : estimateEffect ols study.data study.treatment study.outcome
            [z] <;> rw [hadj] at h
        · simp only [Except.ok.injEq, Prod.mk.injEq] at h
          obtain ⟨hres, hconf⟩ := h
          subst hres
          subst hconf
          constructor
          · rintro ⟨v, hv⟩
            cases hv
          · intro
            exact ⟨rfl, rfl, rfl, rfl⟩
        · simp only [Except.ok.injEq, Prod.mk.injEq] at h
          obtain ⟨hres, hconf⟩ := h
          subst hres
          subst hconf
          constructor
          · intro
            exact ⟨rfl, rfl⟩
          · rintro ⟨e, he⟩
            cases he

/-- Witness for C3 (amended) on the concrete failing-adjusted-fit run: the
record comes back unchanged and the result reports zero bias. -/
theorem estimate_bias_mutation_witness :
    ((∃ v, estimateEffect olsFailAdj studyTYZ.data studyTYZ.treatment
        studyTYZ.outcome ["z"] = .ok v) →
      confZ.bias_magnitude = some (0 : ℚ) ∧ confZ.bias_percentage = some (0 : ℚ)) ∧
    ((∃ e, estimateEffect olsFailAdj studyTYZ.data studyTYZ.treatment
        studyTYZ.outcome ["z"] = .error e) →
      confZ = confZ ∧ (0 : ℚ) = 0 ∧ (0 : ℚ) = 0 ∧ false = false) :=
  estimate_bias_mutation olsFailAdj confZ studyTYZ (1 / 10)
    { naive_estimate := 10, adjusted_estimate := 10, bias_magnitude := 0
      bias_percentage := 0, is_problematic := false }
    confZ "z" rfl estimate_bias_olsFailAdj_run

/-- C4: the association testers never raise.  `check_association` returns
`(1, not-significant)` without a test when fewer than 5 complete pairs
remain, and likewise when the Pearson test fails numerically;
`check_conditional_association` returns `(1, not-significant)` with the
insufficient-data marker when fewer than `len([target, predictor] ++
controls) + 5` complete rows remain, and not-significant with the error
annotation when the model fit fails. -/
theorem association_tests_degrade (pearson : PearsonOracle) (fit : FitOracle)
    (x y : List (Option ℚ)) (alpha : ℚ) (target predictor : String)
    (controls : List String) (data : Frame) (isBin : Bool) :
    ((cleanPairs x y).length < 5 →
      check_association pearson x y alpha = (1, false)) ∧
    (∀ e, pearson (cleanPairs x y) = .error e →
      check_association pearson x y alpha = (1, false)) ∧
    ((completeRows data ([target, predictor] ++ controls)).length <
        ([target, predictor] ++ controls).length + 5 →
      check_conditional_association fit target predictor controls data alpha isBin =
        (1, false, .insufficientData)) ∧
    (∀ e, ¬ (completeRows data ([target, predictor] ++ controls)).length <
        ([target, predictor] ++ controls).length + 5 →
      fit (completeRows data ([target, predictor] ++ controls)) target predictor
        controls (condIsLogit (completeRows data ([target, predictor] ++ controls))
          target isBin) = .error e →
      check_conditional_association fit target predictor controls data alpha isBin =
        (1, false, .fitError e)) := by
  refine ⟨?_, ?_, ?_, ?_⟩
  · intro h
    unfold check_association
    rw [if_pos h]
  · intro e he
    unfold check_association
    by_cases h5 : (cleanPairs x y).length < 5
    · rw [if_pos h5]
    · rw [if_neg h5, he]
  · intro h
    unfold check_conditional_association
    rw [if_pos h]
  · intro e hlen hfit
    unfold check_conditional_association
    rw [if_neg hlen]
    dsimp only
    rw [hfit]

/-- A Pearson oracle that always fails, modelling a numerical failure. -/
def pearsonErrW : PearsonOracle := fun _ => .error ("zero variance")

/-- A fit oracle that always fails, modelling non-convergence. -/
def fitErrW : FitOracle := fun _ _ _ _ _ => .error ("non-convergence")

/-- A seven-row frame over columns t, y, z (enough complete rows for the
two-column conditional test). -/
def frame7 : Frame :=
  { cols := ["t", "y", "z"]
    rows := [rowTYZ, rowTYZ, rowTYZ, rowTYZ, rowTYZ, rowTYZ, rowTYZ] }

/-- A study on `frame7`. -/
def study7 : Study :=
  { data := frame7, treatment := "t", outcome := "y", measured_covariates := ["z"]
    research_question := "does t cause y", background_context := none }

/-- Witness for C4 at concrete inputs: one short series, one failing Pearson
test, one too-small conditional sample, one failing model fit. -/
theorem association_tests_degrade_witness :
    check_association pearsonErrW [some 1] [some 1] (1 / 20) = (1, false) ∧
    check_association pearsonErrW [some 1, some 2, some 3, some 4, some 5]
      [some 1, some 2, some 3, some 4, some 5] (1 / 20) = (1, false) ∧
    check_conditional_association fitErrW "t" "y" [] frameTYZ (1 / 20) false =
      (1, false, .insufficientData) ∧
    check_conditional_association fitErrW "t" "y" [] frame7 (1 / 20) false =
      (1, false, .fitError ("non-convergence")) :=
  ⟨(association_tests_degrade pearsonErrW fitErrW [some 1] [some 1] (1 / 20)
      "t" "y" [] frameTYZ false).1 (by decide),
   (association_tests_degrade pearsonErrW fitErrW
      [some 1, some 2, some 3, some 4, some 5]
      [some 1, some 2, some 3, some 4, some 5] (1 / 20)
      "t" "y" [] frameTYZ false).2.1 ("zero variance") rfl,
   (association_tests_degrade pearsonErrW fitErrW [] [] (1 / 20)
      "t" "y" [] frameTYZ false).2.2.1 (by decide),
   (association_tests_degrade pearsonErrW fitErrW [] [] (1 / 20)
      "t" "y" [] frame7 false).2.2.2 ("non-convergence") (by decide) rfl⟩

/-- C1: every measured confounder produced by `validate_candidates` is
declared statistically significant iff BOTH conditional tests are significant
at alpha: Z → Treatment with controls = the measured covariates minus Z, and
Z → Outcome with controls = the treatment plus the measured covariates
minus Z. -/
theorem validate_candidates_iff_both (fit : FitOracle)
    (candidates : List ConfounderCandidate) (study : Study) (alpha : ℚ)
    (v : ValidatedConfounder)
    (hv : v ∈ validate_candidates fit candidates study alpha)
    (hm : v.is_measured = true) :
    ∃ z, v.matched_column = some z ∧
      (v.is_statistically_significant = true ↔
        ((check_conditional_association fit study.treatment z
            (study.measured_covariates.filter (fun c => decide (c ≠ z)))
            study.data alpha false).2.1 = true ∧
         (check_conditional_association fit study.outcome z
            ([study.treatment] ++
              study.measured_covariates.filter (fun c => decide (c ≠ z)))
            study.data alpha false).2.1 = true)) := by
  unfold validate_candidates at hv
  rw [List.mem_filterMap] at hv
  obtain ⟨cand, -, hf⟩ := hv
  cases hmc : match_candidate_to_column cand study.data.cols <;> rw [hmc] at hf
  · dsimp only at hf
    rw [Option.some.injEq] at hf
    subst hf
    cases hm
  · rename_i col
    dsimp only at hf
    by_cases hskip : col = study.treatment ∨ col = study.outcome
    · rw [if_pos hskip] at hf
      cases hf
    · rw [if_neg hskip] at hf
      rw [Option.some.injEq] at hf
      subst hf
      refine ⟨col, rfl, ?_⟩
      unfold check_confounding_criteria
      dsimp only
      rw [Bool.and_eq_true]

/-- The measured, matched, not-significant record that
`validate_candidates fitErrW [candZ] study7` produces. -/
def v1 : ValidatedConfounder :=
  { candidate := candZ, is_measured := true, matched_column := some "z"
    causes_treatment_pval := some 1, causes_outcome_pval := some 1
    is_statistically_significant := false }

/-- Witness for C1 on a concrete run: candidate z matches column z of
`study7`, and with an always-failing fit oracle both tests are
not-significant, so the iff holds with both sides false. -/
theorem validate_candidates_iff_both_witness :
    ∃ z, v1.matched_column = some z ∧
      (v1.is_statistically_significant = true ↔
        ((check_conditional_association fitErrW study7.treatment z
            (study7.measured_covariates.filter (fun c => decide (c ≠ z)))
            study7.data (1 / 20) false).2.1 = true ∧
         (check_conditional_association fitErrW study7.outcome z
            ([study7.treatment] ++
              study7.measured_covariates.filter (fun c => decide (c ≠ z)))
            study7.data (1 / 20) false).2.1 = true)) :=
  validate_candidates_iff_both fitErrW [candZ] study7 (1 / 20) v1
    (by decide) rfl

/-- `insertRanked` is a permutation-insert: the result is the element plus
the old list. -/
theorem insertRanked_perm (x : RankedConfounder) (s : List RankedConfounder) :
    List.Perm (insertRanked x s) (x :: s) := by
  induction s with
  | nil => exact List.Perm.refl _
  | cons y ys ih =>
      unfold insertRanked
      by_cases hlt : y.priority < x.priority
      · rw [if_pos hlt]
        exact (ih.cons y).trans (List.Perm.swap x y ys)
      · rw [if_neg hlt]

/-- `insertRanked` preserves ascending-priority sortedness. -/
theorem insertRanked_pairwise (x : RankedConfounder) (s : List RankedConfounder)
    (hs : s.Pairwise (fun a b => a.priority ≤ b.priority)) :
    (insertRanked x s).Pairwise (fun a b => a.priority ≤ b.priority) := by
  induction s with
  | nil => simp [insertRanked]
  | cons y ys ih =>
      rw [List.pairwise_cons] at hs
      obtain ⟨hy, hys⟩ := hs
      unfold insertRanked
      by_cases hlt : y.priority < x.priority
      · rw [if_pos hlt]
        rw [List.pairwise_cons]
        refine ⟨?_, ih hys⟩
        intro z hz
        rcases List.mem_cons.mp ((insertRanked_perm x ys).mem_iff.mp hz) with hz | hz
        · rw [hz]
          exact Nat.le_of_lt hlt
        · exact hy z hz
      · rw [if_neg hlt]
        rw [List.pairwise_cons]
        refine ⟨?_, List.pairwise_cons.mpr ⟨hy, hys⟩⟩
        intro z hz
        rcases List.mem_cons.mp hz with hz | hz
        · rw [hz]
          exact Nat.le_of_not_lt hlt
        · exact Nat.le_trans (Nat.le_of_not_lt hlt) (hy z hz)

/-- Filtering by a fixed priority commutes with `insertRanked`: the inserted
element lands in front of the equal-priority elements (stability). -/
theorem filter_insertRanked (x : RankedConfounder) (s : List RankedConfounder)
    (p : ℕ) :
    (insertRanked x s).filter (fun r => r.priority == p) =
      if x.priority = p then
        x :: s.filter (fun r => r.priority == p)
      else s.filter (fun r => r.priority == p) := by
  induction s with
  | nil =>
      show List.filter _ [x] = _
      rw [List.filter_cons]
      by_cases hxp : x.priority = p
      · rw [if_pos (show (x.priority == p) = true by simpa using hxp), if_pos hxp]
      · rw [if_neg (show ¬ (x.priority == p) = true by simpa using hxp),
          if_neg hxp]
  | cons y ys ih =>
      unfold insertRanked
      by_cases hlt : y.priority < x.priority
      · rw [if_pos hlt]
        by_cases hxp : x.priority = p
        · have hyp : (y.priority == p) = false := by
            simp only [beq_eq_false_iff_ne]
            exact Nat.ne_of_lt (hxp ▸ hlt)
          simp only [List.filter_cons, hyp, Bool.false_eq_true, if_false, ih,
            if_pos hxp]
        · simp only [List.filter_cons, ih, if_neg hxp]
      · rw [if_neg hlt]
        by_cases hxp : x.priority = p
        · rw [List.filter_cons,
            if_pos (show (x.priority == p) = true by simpa using hxp), if_pos hxp]
        · rw [List.filter_cons,
            if_neg (show ¬ (x.priority == p) = true by simpa using hxp),
            if_neg hxp]

/-- `sortByPriority` permutes its input. -/
theorem sortByPriority_perm (l : List RankedConfounder) :
    List.Perm (sortByPriority l) l := by
  induction l with
  | nil => rfl
  | cons a l ih => exact (insertRanked_perm a (sortByPriority l)).trans (ih.cons a)

/-- `sortByPriority` output is ascending in priority. -/
theorem sortByPriority_pairwise (l : List RankedConfounder) :
    (sortByPriority l).Pairwise (fun a b => a.priority ≤ b.priority) := by
  induction l with
  | nil => exact List.Pairwise.nil
  | cons a l ih => exact insertRanked_pairwise a (sortByPriority l) ih

/-- `sortByPriority` is stable: the equal-priority subsequences are exactly
those of the input, in input order. -/
theorem sortByPriority_filter (l : List RankedConfounder) (p : ℕ) :
    (sortByPriority l).filter (fun r => r.priority == p) =
      l.filter (fun r => r.priority == p) := by
  induction l with
  | nil => rfl
  | cons a l ih =>
      show (insertRanked a (sortByPriority l)).filter _ = _
      rw [filter_insertRanked, List.filter_cons]
      by_cases hap : a.priority = p
      · rw [if_pos hap, if_pos (by simpa using hap), ih]
      · rw [if_neg hap, if_neg (by simpa using hap), ih]

/-- Characterization of a produced rank record: it wraps the input
confounder, the input is not measured-and-not-significant, and the priority
and severity follow the ranking table of the source. -/
theorem rankOne_spec (v : ValidatedConfounder) (r : RankedConfounder)
    (h : rankOne v = some r) :
    r.confounder = v ∧
    ¬ (v.is_measured = true ∧ v.is_statistically_significant = false) ∧
    (v.is_measured = true → v.is_statistically_significant = true →
      ((|v.bias_percentage.getD 0| > 25 → r.priority = 1 ∧ r.severity = "Critical") ∧
       (10 < |v.bias_percentage.getD 0| → |v.bias_percentage.getD 0| ≤ 25 →
          r.priority = 2 ∧ r.severity = "Moderate") ∧
       (|v.bias_percentage.getD 0| ≤ 10 → r.priority = 4 ∧ r.severity = "Minor"))) ∧
    (v.is_measured = false →
      ((lowerStr v.candidate.severity = "high" →
          r.priority = 1 ∧ r.severity = "Critical") ∧
       (lowerStr v.candidate.severity = "medium" →
          r.priority = 3 ∧ r.severity = "Moderate") ∧
       (lowerStr v.candidate.severity = "low" →
          r.priority = 5 ∧ r.severity = "Minor"))) := by
  unfold rankOne at h
  by_cases hb : (v.is_measured && v.is_statistically_significant) = true
  · rw [if_pos hb] at h
    rw [Bool.and_eq_true] at hb
    obtain ⟨hm, hs⟩ := hb
    have hnot : ¬ (v.is_measured = true ∧ v.is_statistically_significant = false) := by
      rintro ⟨-, hc⟩
      rw [hs] at hc
      cases hc
    by_cases h25 : |v.bias_percentage.getD 0| > 25
    · rw [if_pos h25, Option.some.injEq] at h
      subst h
      exact ⟨rfl, hnot,
        fun _ _ => ⟨fun _ => ⟨rfl, rfl⟩,
          fun _ hle => absurd h25 (not_lt.mpr hle),
          fun hle => absurd h25 (not_lt.mpr (hle.trans (by norm_num)))⟩,
        fun hf => absurd (hf ▸ hm) (by simp)⟩
    · rw [if_neg h25] at h
      by_cases h10 : |v.bias_percentage.getD 0| > 10
      · rw [if_pos h10, Option.some.injEq] at h
        subst h
        exact ⟨rfl, hnot,
          fun _ _ => ⟨fun hc => absurd hc h25,
            fun _ _ => ⟨rfl, rfl⟩,
            fun hle => absurd h10 (not_lt.mpr hle)⟩,
          fun hf => absurd (hf ▸ hm) (by simp)⟩
      · rw [if_neg h10, Option.some.injEq] at h
        subst h
        exact ⟨rfl, hnot,
          fun _ _ => ⟨fun hc => absurd hc h25,
            fun hc _ => absurd hc h10,
            fun _ => ⟨rfl, rfl⟩⟩,
          fun hf => absurd (hf ▸ hm) (by simp)⟩
  · rw [if_neg hb] at h
    by_cases hmv : v.is_measured = true
    · have hnm : (!v.is_measured) = false := by rw [hmv]; rfl
      rw [hnm] at h
      simp only [Bool.false_eq_true, if_false] at h
      cases h
    · have hmf : v.is_measured = false := Bool.eq_false_iff.mpr hmv
      have hnm : (!v.is_measured) = true := by rw [hmf]; rfl
      rw [hnm] at h
      simp only [if_true] at h
      have hnot : ¬ (v.is_measured = true ∧ v.is_statistically_significant = false) := by
        rintro ⟨hc, -⟩
        exact hmv hc
      have hmeas : v.is_measured = true → v.is_statistically_significant = true →
            ((|v.bias_percentage.getD 0| > 25 → r.priority = 1 ∧ r.severity = "Critical") ∧
             (10 < |v.bias_percentage.getD 0| → |v.bias_percentage.getD 0| ≤ 25 →
                r.priority = 2 ∧ r.severity = "Moderate") ∧
             (|v.bias_percentage.getD 0| ≤ 10 → r.priority = 4 ∧ r.severity = "Minor")) :=
        fun hc => absurd hc hmv
      by_cases hh : lowerStr v.candidate.severity = "high"
      · rw [if_pos hh, Option.some.injEq] at h
        subst h
        exact ⟨rfl, hnot, hmeas,
          fun _ => ⟨fun _ => ⟨rfl, rfl⟩,
            fun hc => absurd (hh.symm.trans hc) (by decide),
            fun hc => absurd (hh.symm.trans hc) (by decide)⟩⟩
      · rw [if_neg hh] at h
        by_cases hmed : lowerStr v.candidate.severity = "medium"
        · rw [if_pos hmed, Option.some.injEq] at h
          subst h
          exact ⟨rfl, hnot, hmeas,
            fun _ => ⟨fun hc => absurd (hmed.symm.trans hc) (by decide),
              fun _ => ⟨rfl, rfl⟩,
              fun hc => absurd (hmed.symm.trans hc) (by decide)⟩⟩
        · rw [if_neg hmed, Option.some.injEq] at h
          subst h
          exact ⟨rfl, hnot, hmeas,
            fun _ => ⟨fun hc => absurd hc hh,
              fun hc => absurd hc hmed,
              fun _ => ⟨rfl, rfl⟩⟩⟩

/-- Every confounder that is unmeasured or significant produces a rank
record wrapping it. -/
theorem rankOne_isSome (v : ValidatedConfounder)
    (h : v.is_measured = false ∨ v.is_statistically_significant = true) :
    ∃ r, rankOne v = some r ∧ r.confounder = v := by
  unfold rankOne
  by_cases hb : (v.is_measured && v.is_statistically_significant) = true
  · rw [if_pos hb]
    by_cases h25 : |v.bias_percentage.getD 0| > 25
    · rw [if_pos h25]
      exact ⟨_, rfl, rfl⟩
    · rw [if_neg h25]
      by_cases h10 : |v.bias_percentage.getD 0| > 10
      · rw [if_pos h10]
        exact ⟨_, rfl, rfl⟩
      · rw [if_neg h10]
        exact ⟨_, rfl, rfl⟩
  · rw [if_neg hb]
    have hmv : v.is_measured = false := by
      by_cases hx : v.is_measured = true
      · rcases h with h | h
        · exact h
        · exact absurd (by rw [hx, h]; rfl) hb
      · exact Bool.eq_false_iff.mpr hx
    rw [hmv]
    simp only [Bool.not_false, if_true]
    by_cases hh : lowerStr v.candidate.severity = "high"
    · rw [if_pos hh]
      exact ⟨_, rfl, rfl⟩
    · rw [if_neg hh]
      by_cases hmed : lowerStr v.candidate.severity = "medium"
      · rw [if_pos hmed]
        exact ⟨_, rfl, rfl⟩
      · rw [if_neg hmed]
        exact ⟨_, rfl, rfl⟩

/-- C5: `rank_confounders` excludes the measured-but-not-significant
confounders and keeps all others, assigns priority and severity by the spec
table (measured and significant: |bias%| > 25 → (1, Critical);
10 < |bias%| ≤ 25 → (2, Moderate); |bias%| ≤ 10 → (4, Minor); unmeasured:
high → (1, Critical), medium → (3, Moderate), low → (5, Minor)), and returns
the records sorted ascending by priority with ties in input order (the
equal-priority subsequences coincide with those of the order-preserving
per-element ranking). -/
theorem rank_confounders_table_sorted_stable (validated : List ValidatedConfounder) :
    (∀ r ∈ rank_confounders validated,
      ¬ (r.confounder.is_measured = true ∧
         r.confounder.is_statistically_significant = false) ∧
      (r.confounder.is_measured = true →
        r.confounder.is_statistically_significant = true →
        ((|r.confounder.bias_percentage.getD 0| > 25 →
            r.priority = 1 ∧ r.severity = "Critical") ∧
         (10 < |r.confounder.bias_percentage.getD 0| →
            |r.confounder.bias_percentage.getD 0| ≤ 25 →
            r.priority = 2 ∧ r.severity = "Moderate") ∧
         (|r.confounder.bias_percentage.getD 0| ≤ 10 →
            r.priority = 4 ∧ r.severity = "Minor"))) ∧
      (r.confounder.is_measured = false →
        ((lowerStr r.confounder.candidate.severity = "high" →
            r.priority = 1 ∧ r.severity = "Critical") ∧
         (lowerStr r.confounder.candidate.severity = "medium" →
            r.priority = 3 ∧ r.severity = "Moderate") ∧
         (lowerStr r.confounder.candidate.severity = "low" →
            r.priority = 5 ∧ r.severity = "Minor")))) ∧
    (∀ v ∈ validated,
      v.is_measured = false ∨ v.is_statistically_significant = true →
      ∃ r ∈ rank_confounders validated, r.confounder = v) ∧
    (rank_confounders validated).Pairwise (fun a b => a.priority ≤ b.priority) ∧
    (∀ p, (rank_confounders validated).filter (fun r => r.priority == p) =
      (validated.filterMap rankOne).filter (fun r => r.priority == p)) := by
  refine ⟨?_, ?_, sortByPriority_pairwise _, fun p => sortByPriority_filter _ p⟩
  · intro r hr
    have hr2 : r ∈ validated.filterMap rankOne :=
      (sortByPriority_perm _).mem_iff.mp hr
    rw [List.mem_filterMap] at hr2
    obtain ⟨v, -, hv⟩ := hr2
    obtain ⟨hconf, hnot, hmeas, hunm⟩ := rankOne_spec v r hv
    rw [hconf]
    exact ⟨hnot, hmeas, hunm⟩
  · intro v hvmem hcond
    obtain ⟨r, hsome, hconf⟩ := rankOne_isSome v hcond
    refine ⟨r, ?_, hconf⟩
    exact (sortByPriority_perm _).mem_iff.mpr
      (List.mem_filterMap.mpr ⟨v, hvmem, hsome⟩)

/-- A measured, significant confounder with 30% bias. -/
def confA : ValidatedConfounder :=
  { candidate :=
      { name := "a", description := "", causes_treatment_because := "x",
        causes_outcome_because := "y", severity := "medium" },
    is_measured := true, matched_column := some "a",
    is_statistically_significant := true, bias_percentage := some 30 }

/-- A measured, significant confounder with 5% bias. -/
def confB : ValidatedConfounder :=
  { candidate :=
      { name := "b", description := "", causes_treatment_because := "x",
        causes_outcome_because := "y", severity := "medium" },
    is_measured := true, matched_column := some "b",
    is_statistically_significant := true, bias_percentage := some 5 }

/-- An unmeasured high-severity confounder. -/
def confC : ValidatedConfounder :=
  { candidate :=
      { name := "c", description := "", causes_treatment_because := "x",
        causes_outcome_because := "y", severity := "high" },
    is_measured := false, matched_column := none }

/-- A measured but not significant confounder. -/
def confD : ValidatedConfounder :=
  { candidate :=
      { name := "d", description := "", causes_treatment_because := "x",
        causes_outcome_because := "y", severity := "low" },
    is_measured := true, matched_column := some "d",
    is_statistically_significant := false }

/-- The concrete ranking input of the spec example. -/
def rankedInput : List ValidatedConfounder := [confA, confB, confC, confD]

/-- The rank record of `confA`. -/
def rA : RankedConfounder :=
  { confounder := confA, severity := "Critical", priority := 1 }

/-- Witness for C5 on the spec example: the 30%-bias confounder is ranked
(1, Critical), the unmeasured high-severity candidate also appears, the
output is ascending in priority, and the priority-1 records are in input
order. -/
theorem rank_confounders_table_sorted_stable_witness :
    (¬ (rA.confounder.is_measured = true ∧
        rA.confounder.is_statistically_significant = false) ∧
     (rA.confounder.is_measured = true →
       rA.confounder.is_statistically_significant = true →
       ((|rA.confounder.bias_percentage.getD 0| > 25 →
           rA.priority = 1 ∧ rA.severity = "Critical") ∧
        (10 < |rA.confounder.bias_percentage.getD 0| →
           |rA.confounder.bias_percentage.getD 0| ≤ 25 →
           rA.priority = 2 ∧ rA.severity = "Moderate") ∧
        (|rA.confounder.bias_percentage.getD 0| ≤ 10 →
           rA.priority = 4 ∧ rA.severity = "Minor"))) ∧
     (rA.confounder.is_measured = false →
       ((lowerStr rA.confounder.candidate.severity = "high" →
           rA.priority = 1 ∧ rA.severity = "Critical") ∧
        (lowerStr rA.confounder.candidate.severity = "medium" →
           rA.priority = 3 ∧ rA.severity = "Moderate") ∧
        (lowerStr rA.confounder.candidate.severity = "low" →
           rA.priority = 5 ∧ rA.severity = "Minor")))) ∧
    (∃ r ∈ rank_confounders rankedInput, r.confounder = confC) ∧
    (rank_confounders rankedInput).Pairwise (fun a b => a.priority ≤ b.priority) ∧
    ((rank_confounders rankedInput).filter (fun r => r.priority == 1) =
      (rankedInput.filterMap rankOne).filter (fun r => r.priority == 1)) :=
  ⟨(rank_confounders_table_sorted_stable rankedInput).1 rA (by
      show rA ∈ rank_confounders rankedInput
      rw [show rank_confounders rankedInput =
        [rA, { confounder := confC, severity := "Critical", priority := 1 },
          { confounder := confB, severity := "Minor", priority := 4 }] from rfl]
      exact List.mem_cons_self _ _),
   (rank_confounders_table_sorted_stable rankedInput).2.1 confC
     (List.mem_cons_of_mem _ (List.mem_cons_of_mem _ (List.mem_cons_self _ _)))
     (Or.inl (show confC.is_measured = false from rfl)),
   (rank_confounders_table_sorted_stable rankedInput).2.2.1,
   (rank_confounders_table_sorted_stable rankedInput).2.2.2 1⟩

/-- Membership in a Python-dict update comes from the old map or is the new
binding. -/
theorem updateRec_mem (m : List (String × List CorrectionStrategy)) (k : String)
    (v : List CorrectionStrategy) (name : String) (strats : List CorrectionStrategy)
    (h : (name, strats) ∈ updateRec m k v) :
    (name, strats) ∈ m ∨ (name = k ∧ strats = v) := by
  unfold updateRec at h
  by_cases hany : m.any (fun p => p.1 == k) = true
  · rw [if_pos hany, List.mem_map] at h
    obtain ⟨p, hp, heq⟩ := h
    by_cases hpk : p.1 = k
    · rw [if_pos hpk] at heq
      cases heq
      exact Or.inr ⟨rfl, rfl⟩
    · rw [if_neg hpk] at heq
      exact Or.inl (heq ▸ hp)
  · rw [if_neg hany, List.mem_append] at h
    rcases h with h | h
    · exact Or.inl h
    · rw [List.mem_singleton] at h
      cases h
      exact Or.inr ⟨rfl, rfl⟩

/-- Every binding of the `suggest_corrections` fold comes from the starting
accumulator or from a confounder of the list with a non-empty strategy
list. -/
theorem suggest_corrections_mem (confounders : List ValidatedConfounder)
    (acc : List (String × List CorrectionStrategy)) (name : String)
    (strats : List CorrectionStrategy)
    (hmem : (name, strats) ∈ confounders.foldl (fun acc conf =>
      let strats := strategiesFor conf
      if strats.isEmpty then acc else updateRec acc conf.candidate.name strats) acc) :
    (name, strats) ∈ acc ∨
      ∃ conf ∈ confounders, conf.candidate.name = name ∧
        strategiesFor conf = strats ∧ strats ≠ [] := by
  induction confounders generalizing acc with
  | nil => exact Or.inl hmem
  | cons c cs ih =>
      rw [List.foldl_cons] at hmem
      rcases ih _ hmem with hacc | ⟨conf, hconf, hn, hs, hne⟩
      · dsimp only at hacc
        by_cases hemp : (strategiesFor c).isEmpty = true
        · rw [if_pos hemp] at hacc
          exact Or.inl hacc
        · rw [if_neg hemp] at hacc
          rcases updateRec_mem _ _ _ _ _ hacc with hacc | ⟨hn, hv⟩
          · exact Or.inl hacc
          · refine Or.inr ⟨c, List.mem_cons_self _ _, hn.symm, hv.symm, ?_⟩
            intro hnil
            rw [← hv, hnil] at hemp
            exact hemp rfl
      · exact Or.inr ⟨conf, List.mem_cons_of_mem _ hconf, hn, hs, hne⟩

/-- C9: `suggest_corrections` gives each measured-and-significant confounder
a strategy list containing "control", with "stratify" additionally present
iff its |bias%| > 25; gives each unmeasured confounder exactly
["sensitivity", "study_design"] in that order; gives a measured-but-not-
significant confounder no strategies, so every recorded entry comes from a
confounder with a non-empty strategy list. -/
theorem suggest_corrections_strategies (confounders : List ValidatedConfounder) :
    (∀ conf : ValidatedConfounder, conf.is_measured = true →
      conf.is_statistically_significant = true →
      ("control" ∈ (strategiesFor conf).map CorrectionStrategy.action_type ∧
       ("stratify" ∈ (strategiesFor conf).map CorrectionStrategy.action_type ↔
         ∃ b, conf.bias_percentage = some b ∧ |b| > 25))) ∧
    (∀ conf : ValidatedConfounder, conf.is_measured = false →
      (strategiesFor conf).map CorrectionStrategy.action_type =
        ["sensitivity", "study_design"]) ∧
    (∀ conf : ValidatedConfounder, conf.is_measured = true →
      conf.is_statistically_significant = false → strategiesFor conf = []) ∧
    (∀ name strats, (name, strats) ∈ suggest_corrections confounders →
      ∃ conf ∈ confounders, conf.candidate.name = name ∧
        strategiesFor conf = strats ∧ strats ≠ []) := by
  refine ⟨?_, ?_, ?_, ?_⟩
  · intro conf hm hs
    unfold strategiesFor
    rw [if_pos (by rw [hm, hs]; rfl)]
    cases hbp : conf.bias_percentage with
    | none =>
        dsimp only
        refine ⟨by simp, ?_⟩
        rw [List.map_cons]
        constructor
        · intro hc
          simp at hc
        · rintro ⟨b, hb, -⟩
          cases hb
    | some b =>
        dsimp only
        by_cases hcond : b ≠ 0 ∧ |b| > 25
        · rw [if_pos hcond]
          refine ⟨by simp, ?_⟩
          constructor
          · intro
            exact ⟨b, rfl, hcond.2⟩
          · intro
            simp
        · rw [if_neg hcond]
          refine ⟨by simp, ?_⟩
          constructor
          · intro hc
            simp at hc
          · rintro ⟨b2, hb2, h25⟩
            rw [Option.some.injEq] at hb2
            subst hb2
            exact absurd ⟨fun h0 => by rw [h0] at h25; norm_num at h25, h25⟩ hcond
  · intro conf hm
    unfold strategiesFor
    rw [if_neg (by rw [hm]; simp), if_pos (by rw [hm]; rfl)]
    rfl
  · intro conf hm hs
    unfold strategiesFor
    rw [if_neg (by rw [hm, hs]; decide), if_neg (by rw [hm]; decide)]
  · intro name strats hmem
    unfold suggest_corrections at hmem
    rcases suggest_corrections_mem confounders [] name strats hmem with hacc | hout
    · cases hacc
    · exact hout

/-- Witness for C9 on concrete confounders: the 30%-bias measured confounder
gets control plus stratify, the unmeasured one gets sensitivity and
study-design, the not-significant one contributes nothing, and the recorded
entry for name a traces back to it. -/
theorem suggest_corrections_strategies_witness :
    ("control" ∈ (strategiesFor confA).map CorrectionStrategy.action_type ∧
     ("stratify" ∈ (strategiesFor confA).map CorrectionStrategy.action_type ↔
       ∃ b, confA.bias_percentage = some b ∧ |b| > 25)) ∧
    ((strategiesFor confC).map CorrectionStrategy.action_type =
      ["sensitivity", "study_design"]) ∧
    (strategiesFor confD = []) ∧
    (∃ conf ∈ [confA, confC, confD], conf.candidate.name = "a" ∧
      strategiesFor conf = strategiesFor confA ∧ strategiesFor confA ≠ []) :=
  ⟨(suggest_corrections_strategies [confA, confC, confD]).1 confA rfl rfl,
   (suggest_corrections_strategies [confA, confC, confD]).2.1 confC rfl,
   (suggest_corrections_strategies [confA, confC, confD]).2.2.1 confD rfl rfl,
   (suggest_corrections_strategies [confA, confC, confD]).2.2.2 "a"
     (strategiesFor confA) (by
       rw [show suggest_corrections [confA, confC, confD] =
         [("a", strategiesFor confA), ("c", strategiesFor confC)] from rfl]
       exact List.mem_cons_self _ _)⟩
